import Mathlib

/-!
Verification development for the dashboard repository: the debounced
search-to-URL filter controller, the validated invoice mutation pipeline
(createInvoice / updateInvoice / deleteInvoice), and the auth middleware
configuration, shallowly embedded in Lean 4.
-/

set_option autoImplicit false

instance {ε α : Type} [DecidableEq ε] [DecidableEq α] : DecidableEq (Except ε α) := fun a b =>
  match a, b with
  | .error e, .error f => decidable_of_iff (e = f) (by simp)
  | .error _, .ok _ => isFalse (by simp)
  | .ok _, .error _ => isFalse (by simp)
  | .ok x, .ok y => decidable_of_iff (x = y) (by simp)

namespace Search

/-- `URLSearchParams` modelled as an ordered list of key/value pairs
(percent-encoding is not modelled; all inputs of interest are plain). -/
abbrev Params := List (String × String)

/-- `params.delete(k)`: remove every entry whose key is `k`. -/
def deleteParam (k : String) : Params → Params
  | [] => []
  | p :: rest => if p.1 = k then deleteParam k rest else p :: deleteParam k rest

/-- `params.set(k, v)`: replace the value of the first entry with key `k`,
drop every later entry with key `k`; if no entry has key `k`, append one. -/
def setParam (k v : String) : Params → Params
  | [] => [(k, v)]
  | p :: rest =>
    if p.1 = k then (k, v) :: deleteParam k rest
    else p :: setParam k v rest

/-- `params.get(k)`: the value of the first entry with key `k`, if any. -/
def getParam (k : String) : Params → Option String
  | [] => none
  | p :: rest => if p.1 = k then some p.2 else getParam k rest

/-- `params.getAll(k)`: the values of all entries with key `k`, in order. -/
def getAll (k : String) : Params → List String
  | [] => []
  | p :: rest => if p.1 = k then p.2 :: getAll k rest else getAll k rest

/-- `params.has(k)`. -/
def hasKey (k : String) : Params → Bool
  | [] => false
  | p :: rest => if p.1 = k then true else hasKey k rest

/-- `params.toString()`: `k=v` entries joined with `&`. -/
def paramsToString (ps : Params) : String :=
  String.intercalate "&" (ps.map (fun p => p.1 ++ "=" ++ p.2))

/-- Result of one `handleClick(term)` call: the parameter set it built, the
`urlRoute` string it computed, and the argument it passed to `replace`. -/
structure ClickResult where
  params : Params
  urlRoute : String
  replaceArg : String
deriving DecidableEq, Repr

/-- `handleClick` from the Search component.  `if (term)` is JS string
truthiness, i.e. `term ≠ ""`.  The source computes
`urlRoute = pathname + "?" + params.toString()` but then calls
`replace('/dashboard')` with a hardcoded path. -/
def handleClick (pathname : String) (searchParams : Params) (term : String) :
    ClickResult :=
  let params :=
    if term ≠ "" then setParam "query" term searchParams
    else deleteParam "query" searchParams
  let urlRoute := pathname ++ "?" ++ paramsToString params
  { params := params, urlRoute := urlRoute, replaceArg := "/dashboard" }

theorem getAll_deleteParam_ne (k k' : String) (hk : k' ≠ k) (ps : Params) :
    getAll k' (deleteParam k ps) = getAll k' ps := by
  induction ps with
  | nil => rfl
  | cons p rest ih =>
    by_cases hp : p.1 = k
    · have hpk : ¬(p.1 = k') := fun h => hk (h.symm.trans hp)
      rw [deleteParam, if_pos hp, getAll, if_neg hpk, ih]
    · by_cases hpk : p.1 = k'
      · rw [deleteParam, if_neg hp, getAll, if_pos hpk, getAll, if_pos hpk, ih]
      · rw [deleteParam, if_neg hp, getAll, if_neg hpk, getAll, if_neg hpk, ih]

theorem getAll_setParam_ne (k v k' : String) (hk : k' ≠ k) (ps : Params) :
    getAll k' (setParam k v ps) = getAll k' ps := by
  induction ps with
  | nil =>
    have hkk : ¬(k = k') := fun h => hk h.symm
    simp [setParam, getAll, hkk]
  | cons p rest ih =>
    by_cases hp : p.1 = k
    · have hkk : ¬(k = k') := fun h => hk h.symm
      have hpk : ¬(p.1 = k') := fun h => hk (h.symm.trans hp)
      simp [setParam, hp, getAll, hkk, hpk, getAll_deleteParam_ne k k' hk rest]
    · by_cases hpk : p.1 = k'
      · rw [setParam, if_neg hp, getAll, if_pos hpk, getAll, if_pos hpk, ih]
      · rw [setParam, if_neg hp, getAll, if_neg hpk, getAll, if_neg hpk, ih]

theorem getParam_setParam_self (k v : String) (ps : Params) :
    getParam k (setParam k v ps) = some v := by
  induction ps with
  | nil => rw [setParam, getParam, if_pos rfl]
  | cons p rest ih =>
    by_cases hp : p.1 = k
    · rw [setParam, if_pos hp, getParam, if_pos rfl]
    · rw [setParam, if_neg hp, getParam, if_neg hp, ih]

theorem hasKey_deleteParam_self (k : String) (ps : Params) :
    hasKey k (deleteParam k ps) = false := by
  induction ps with
  | nil => rfl
  | cons p rest ih =>
    by_cases hp : p.1 = k
    · rw [deleteParam, if_pos hp, ih]
    · rw [deleteParam, if_neg hp, hasKey, if_neg hp, ih]

end Search

namespace Actions

/-- Digits of a decimal numeral folded into a natural number. -/
def natOfDigits (cs : List Char) : Nat :=
  cs.foldl (fun a c => a * 10 + (c.toNat - 48)) 0

def allDigits (cs : List Char) : Bool :=
  cs.all (fun c => c.isDigit)

/-- JS whitespace stripped by `Number()` before parsing. -/
def isJsWs (c : Char) : Bool :=
  c == ' ' || c == '\t' || c == '\n' || c == '\r'

def trimWs (cs : List Char) : List Char :=
  ((cs.dropWhile isJsWs).reverse.dropWhile isJsWs).reverse

/-- Unsigned decimal literal (`digits`, `digits.digits`, `.digits`,
`digits.`) as an exact rational; `none` is NaN.  The value of
`intPart.fracPart` is the integer with digits `intPart ++ fracPart`
divided by `10 ^ fracPart.length`.  Exponent and non-decimal literal
forms accepted by JS `Number()` are not modelled (no input of the
program under study uses them). -/
def parseUnsigned (cs : List Char) : Option ℚ :=
  match cs.span (fun c => c ≠ '.') with
  | (intPart, []) =>
    if !intPart.isEmpty && allDigits intPart then
      some ((natOfDigits intPart : ℚ))
    else none
  | (intPart, _dot :: fracPart) =>
    if (!intPart.isEmpty || !fracPart.isEmpty) && allDigits intPart
        && allDigits fracPart then
      some (Rat.divInt (natOfDigits (intPart ++ fracPart))
        ((10 : ℤ) ^ fracPart.length))
    else none

/-- JS `Number(s)` for a string `s`: whitespace-only strings coerce to `0`,
decimal literals to their value, everything else to NaN (`none`).
JS numbers are IEEE-754 binary64 doubles; this model returns the exact
rational value of the literal instead.  Concrete numeric conclusions are
therefore drawn only at instances where the two agree: the coercions
`null`, `""`, `"0"`, `"10"`, `"12.50"`, `"0.005"` and the products
`10 * 100 = 1000`, `12.5 * 100 = 1250`, `0.005 * 100 = 0.5` all hold
exactly in binary64 as well. -/
def jsNumberOfString (s : String) : Option ℚ :=
  match trimWs s.data with
  | [] => some 0
  | '-' :: rest => (parseUnsigned rest).map (fun q => -q)
  | '+' :: rest => parseUnsigned rest
  | cs => parseUnsigned cs

/-- `z.coerce.number()` applies JS `Number()` to the raw `FormData` value:
`null` (a missing field) coerces to `0`, a string as in
`jsNumberOfString`. -/
def jsCoerceNumber : Option String → Option ℚ
  | none => some 0
  | some s => jsNumberOfString s

inductive InvoiceStatus where
  | pending
  | paid
deriving DecidableEq, Repr

/-- Raw form values: `formData.get` returns a string or `null`. -/
structure RawForm where
  customerId : Option String
  amount : Option String
  status : Option String
deriving DecidableEq, Repr

structure InvoiceDraft where
  customerId : String
  amount : ℚ
  status : InvoiceStatus
deriving DecidableEq, Repr

/-- `error.flatten().fieldErrors`: per-field message lists
(`[]` = field absent from the error object). -/
structure FieldErrors where
  customerId : List String
  amount : List String
  status : List String
deriving DecidableEq, Repr

/-- `z.string({invalid_type_error: 'Please select a customer.'})`:
any string (the empty string included) passes; `null` is a type error. -/
def customerIdField : Option String → Except (List String) String
  | none => .error ["Please select a customer."]
  | some s => .ok s

/-- `z.coerce.number().gt(0, {message: 'Please enter an amount greater than
$0.'})`.  The NaN message is the library default (text abbreviated; no
claim inspects it). -/
def amountField (v : Option String) : Except (List String) ℚ :=
  match jsCoerceNumber v with
  | none => .error ["Expected number, received nan"]
  | some q => if 0 < q then .ok q
      else .error ["Please enter an amount greater than $0."]

/-- `z.enum(['pending', 'paid'], {invalid_type_error: 'Please select an
invoice status.'})`.  The wrong-string message is the library default
(text abbreviated; no claim inspects it). -/
def statusField : Option String → Except (List String) InvoiceStatus
  | none => .error ["Please select an invoice status."]
  | some "pending" => .ok .pending
  | some "paid" => .ok .paid
  | some s => .error ["Invalid enum value, received " ++ s]

def errsOf {α : Type} : Except (List String) α → List String
  | .error e => e
  | .ok _ => []

/-- `FormSchema.omit(id, date)` applied to the three raw fields — the
shared shape of both `CreateInvoice` and `UpdateInvoice`.  `Except.ok` is
a successful parse; `Except.error` carries `flatten().fieldErrors`. -/
def parseForm (raw : RawForm) : Except FieldErrors InvoiceDraft :=
  match customerIdField raw.customerId, amountField raw.amount,
      statusField raw.status with
  | .ok c, .ok a, .ok s => .ok ⟨c, a, s⟩
  | rc, ra, rs => .error ⟨errsOf rc, errsOf ra, errsOf rs⟩

/-- Observable side effects of one server-action invocation, in program
order.  A `sql*` effect is the statement handed to the store (whether or
not the store then fails). -/
inductive Effect where
  | sqlInsert (customerId : String) (amountInCents : ℚ)
      (status : InvoiceStatus) (date : String)
  | sqlUpdate (id : String) (customerId : String) (amountInCents : ℚ)
      (status : InvoiceStatus)
  | sqlDelete (id : String)
  | revalidatePath (path : String)
  | redirect (path : String)
deriving DecidableEq, Repr

/-- The `State` return type of the actions. -/
structure State where
  errors : Option FieldErrors
  message : Option String
deriving DecidableEq, Repr

/-- `createInvoice`.  `today` stands for
`new Date().toISOString().split('T')[0]` (the clock is external);
`dbOk = false` means the awaited `sql` call throws.  The first component
is the returned `State` (`none` when the function ends in `redirect`,
which never returns); the second is the effect trace.
`amountInCents := d.amount * 100` mirrors the source's `amount * 100`:
the source multiplies binary64 doubles while the model multiplies exact
rationals (in binary64, `0.07 * 100` is `7.000000000000001`, not `7`), so
statements about the product's numeric value are made only at instances
where the double and the rational product coincide (`10`, `12.50`,
`0.005`); that no truncation is applied to the product is faithful
regardless. -/
def createInvoice (today : String) (dbOk : Bool) (raw : RawForm) :
    Option State × List Effect :=
  match parseForm raw with
  | .error e =>
    (some ⟨some e, some "Missing Fields. Failed to Create Invoice."⟩, [])
  | .ok d =>
    let amountInCents := d.amount * 100
    if dbOk then
      (none,
       [Effect.sqlInsert d.customerId amountInCents d.status today,
        Effect.revalidatePath "/dashboard/invoices",
        Effect.redirect "/dashboard/invoices"])
    else
      (some ⟨none, some "Database Error: Failed to Create Invoice."⟩,
       [Effect.sqlInsert d.customerId amountInCents d.status today])

/-- `updateInvoice` uses the throwing `UpdateInvoice.parse`: on invalid
input the ZodError propagates out of the action, modelled as the outer
`Except.error` carrying the field errors. -/
def updateInvoice (dbOk : Bool) (id : String) (raw : RawForm) :
    Except FieldErrors (Option State × List Effect) :=
  match parseForm raw with
  | .error e => .error e
  | .ok d =>
    let amountInCents := d.amount * 100
    if dbOk then
      .ok (none,
        [Effect.sqlUpdate id d.customerId amountInCents d.status,
         Effect.revalidatePath "/dashboard/invoices",
         Effect.redirect "/dashboard/invoices"])
    else
      .ok (some ⟨none, some "Database Error: Failed to Update Invoice."⟩,
        [Effect.sqlUpdate id d.customerId amountInCents d.status])

/-- `deleteInvoice`: no validation, delete keyed by `id`, revalidate on
success, no redirect. -/
def deleteInvoice (dbOk : Bool) (id : String) : Option State × List Effect :=
  if dbOk then
    (none, [Effect.sqlDelete id, Effect.revalidatePath "/dashboard/invoices"])
  else
    (some ⟨none, some "Database Error: Failed to Delete Invoice."⟩,
     [Effect.sqlDelete id])

end Actions

namespace Auth

/-- Outcome of the `authorized` callback: `true` (allow), `false` (deny —
the framework then redirects to `pages.signIn`), or an explicit redirect
response. -/
inductive AuthzResult where
  | allow
  | deny
  | redirectTo (url : String)
deriving DecidableEq, Repr

/-- `pages.signIn` of `authConfig`: where a denied request is sent. -/
def signInPage : String := "/login"

/-- JS `s.startsWith(p)` as a character-list prefix test (extensionally
the same as `String.startsWith`, stated on the underlying characters). -/
def jsStartsWith (s p : String) : Bool :=
  p.data.isPrefixOf s.data

/-- The `authorized` callback of `authConfig`.  `isLoggedIn` is
`!!auth?.user`; `pathname` is `nextUrl.pathname`.
`Response.redirect(new URL('/dashboard', nextUrl))` is modelled by its
path. -/
def authorized (isLoggedIn : Bool) (pathname : String) : AuthzResult :=
  let isOnDashboard := jsStartsWith pathname "/dashboard"
  if isOnDashboard then
    if isLoggedIn then .allow else .deny
  else if isLoggedIn then .redirectTo "/dashboard"
  else .allow

end Auth

namespace Debounce

/-- Modelled from the spec: the `useDebouncedCallback` implementation
lives in the external `use-debounce` package, not in this repository.
Per the spec, each input event cancels the pending scheduled callback and
reschedules at its own time plus the delay; a pending callback fires once
its fire time is reached with no intervening event
(leading-edge-cancel, trailing-edge-fire).  `pending` is the scheduled
(fire time, value) pair. -/
def debStep {α : Type} (delay : Nat) (pending : Option (Nat × α))
    (e : Nat × α) : List α × Option (Nat × α) :=
  match pending with
  | none => ([], some (e.1 + delay, e.2))
  | some f =>
    if f.1 ≤ e.1 then ([f.2], some (e.1 + delay, e.2))
    else ([], some (e.1 + delay, e.2))

/-- Modelled from the spec: run the debounce machine over a
time-ordered event list, collecting the values the callback fires with;
after the last event the remaining pending callback fires. -/
def debRun {α : Type} (delay : Nat) (pending : Option (Nat × α)) :
    List (Nat × α) → List α
  | [] =>
    match pending with
    | none => []
    | some f => [f.2]
  | e :: es => (debStep delay pending e).1 ++ debRun delay (debStep delay pending e).2 es

/-- Values the debounced callback fires with, for keystrokes `events`
given as (time, value) pairs. -/
def debounceFired {α : Type} (delay : Nat) (events : List (Nat × α)) : List α :=
  debRun delay none events

/-- Every gap between consecutive events is shorter than `delay`. -/
def rapidB {α : Type} (delay : Nat) : List (Nat × α) → Bool
  | [] => true
  | [_] => true
  | a :: b :: rest => decide (b.1 < a.1 + delay) && rapidB delay (b :: rest)

/-- Value of the last event of `e :: es`. -/
def lastVal {α : Type} (e : Nat × α) : List (Nat × α) → α
  | [] => e.2
  | f :: fs => lastVal f fs

/-- The delay passed to `useDebouncedCallback` in the Search component. -/
def debounceDelay : Nat := 1000

/-- The Search component wires the debounced callback to `handleClick`:
the navigation updates issued for a keystroke sequence are `handleClick`
applied to each fired value. -/
def searchNavigations (pathname : String) (searchParams : Search.Params)
    (events : List (Nat × String)) : List Search.ClickResult :=
  (debounceFired debounceDelay events).map (Search.handleClick pathname searchParams)

theorem debRun_pending_rapid {α : Type} (delay : Nat) :
    ∀ (es : List (Nat × α)) (t : Nat) (v : α),
      rapidB delay ((t, v) :: es) = true →
      debRun delay (some (t + delay, v)) es = [lastVal (t, v) es] := by
  intro es
  induction es with
  | nil => intro t v _; rfl
  | cons f fs ih =>
    intro t v h
    rw [rapidB] at h
    have h1 := (Bool.and_eq_true _ _).mp h
    have hlt : f.1 < t + delay := of_decide_eq_true h1.1
    have hnle : ¬(t + delay ≤ f.1) := Nat.not_le.mpr hlt
    rw [debRun]
    simp only [debStep, hnle, if_false, List.nil_append]
    rw [lastVal]
    exact ih f.1 f.2 h1.2

theorem debounceFired_rapid {α : Type} (delay : Nat) (e : Nat × α)
    (es : List (Nat × α)) (h : rapidB delay (e :: es) = true) :
    debounceFired delay (e :: es) = [lastVal e es] := by
  rw [debounceFired, debRun]
  simp only [debStep, List.nil_append]
  exact debRun_pending_rapid delay es e.1 e.2 h

end Debounce

namespace Actions

theorem parseForm_error_of_amount (raw : RawForm) (m : List String)
    (h : amountField raw.amount = Except.error m) :
    ∃ e, parseForm raw = Except.error e ∧ e.amount = m := by
  refine ⟨⟨errsOf (customerIdField raw.customerId), m,
    errsOf (statusField raw.status)⟩, ?_, rfl⟩
  rcases hc : customerIdField raw.customerId with ec | c <;>
    rcases hs : statusField raw.status with es | s <;>
      simp [parseForm, hc, hs, h, errsOf]

theorem createInvoice_validation_error (today : String) (dbOk : Bool)
    (raw : RawForm) (e : FieldErrors) (h : parseForm raw = Except.error e) :
    createInvoice today dbOk raw =
      (some ⟨some e, some "Missing Fields. Failed to Create Invoice."⟩, []) := by
  simp [createInvoice, h]

theorem createInvoice_ok_dbFail (today : String) (raw : RawForm)
    (d : InvoiceDraft) (h : parseForm raw = Except.ok d) :
    createInvoice today false raw =
      (some ⟨none, some "Database Error: Failed to Create Invoice."⟩,
       [Effect.sqlInsert d.customerId (d.amount * 100) d.status today]) := by
  simp [createInvoice, h]

theorem createInvoice_ok_dbOk (today : String) (raw : RawForm)
    (d : InvoiceDraft) (h : parseForm raw = Except.ok d) :
    createInvoice today true raw =
      (none,
       [Effect.sqlInsert d.customerId (d.amount * 100) d.status today,
        Effect.revalidatePath "/dashboard/invoices",
        Effect.redirect "/dashboard/invoices"]) := by
  simp [createInvoice, h]

theorem updateInvoice_validation_error (dbOk : Bool) (id : String)
    (raw : RawForm) (e : FieldErrors) (h : parseForm raw = Except.error e) :
    updateInvoice dbOk id raw = Except.error e := by
  simp [updateInvoice, h]

theorem updateInvoice_ok_dbFail (id : String) (raw : RawForm)
    (d : InvoiceDraft) (h : parseForm raw = Except.ok d) :
    updateInvoice false id raw =
      Except.ok (some ⟨none, some "Database Error: Failed to Update Invoice."⟩,
        [Effect.sqlUpdate id d.customerId (d.amount * 100) d.status]) := by
  simp [updateInvoice, h]

end Actions

/-- Claim C1: the spec says `handleClick` applies the query string it just
built — `replace` is called with the URL `pathname ++ "?" ++
params.toString()`.  The code instead calls `replace('/dashboard')` with a
hardcoded path (contradicting its own inline comment), although it does
construct that URL in `urlRoute`.  Evaluated at pathname
`/dashboard/invoices`, empty current parameters and term `foo`: the
constructed URL is `/dashboard/invoices?query=foo`, but the argument
passed to `replace` is `/dashboard`, and this holds for every input. -/
theorem c1_handleClick_replace_is_hardcoded :
    (∀ (pathname : String) (ps : Search.Params) (term : String),
      (Search.handleClick pathname ps term).replaceArg = "/dashboard") ∧
    (Search.handleClick "/dashboard/invoices" [] "foo").urlRoute =
      "/dashboard/invoices?query=foo" ∧
    (Search.handleClick "/dashboard/invoices" [] "foo").replaceArg ≠
      (Search.handleClick "/dashboard/invoices" [] "foo").urlRoute := by
  refine ⟨fun pathname ps term => rfl, by decide, by decide⟩

/-- Claim C2, counterexample to the quoted instance: the input
`(customerId: "", amount: "10", status: "pending")` is claimed to yield an
error result carrying a customerId message with no mutation attempted;
in fact `z.string()` accepts the empty string, validation succeeds, and
`createInvoice` issues the insert (then revalidates and redirects,
returning no error state). -/
theorem c2_counterexample :
    Actions.createInvoice "2024-01-01" true ⟨some "", some "10", some "pending"⟩ =
      (none,
       [Actions.Effect.sqlInsert "" 1000 Actions.InvoiceStatus.pending "2024-01-01",
        Actions.Effect.revalidatePath "/dashboard/invoices",
        Actions.Effect.redirect "/dashboard/invoices"]) := by
  have h : Actions.parseForm ⟨some "", some "10", some "pending"⟩ =
      Except.ok ⟨"", 10, Actions.InvoiceStatus.pending⟩ := by decide
  simp [Actions.createInvoice, h]
  norm_num

/-- Claim C2 as amended: validation is all-or-nothing — whenever schema
validation fails, `createInvoice` returns the per-field message mapping
and issues no SQL statement; but the empty string passes the `z.string()`
customerId check, so the failing-customerId instance is a missing (null)
customerId, which yields the message `Please select a customer.` with no
mutation attempted. -/
theorem c2_validation_all_or_nothing :
    (∀ (today : String) (dbOk : Bool) (raw : Actions.RawForm)
        (e : Actions.FieldErrors),
      Actions.parseForm raw = Except.error e →
      Actions.createInvoice today dbOk raw =
        (some ⟨some e, some "Missing Fields. Failed to Create Invoice."⟩, [])) ∧
    (∀ (today : String) (dbOk : Bool),
      Actions.createInvoice today dbOk ⟨none, some "10", some "pending"⟩ =
        (some ⟨some ⟨["Please select a customer."], [], []⟩,
               some "Missing Fields. Failed to Create Invoice."⟩, [])) := by
  refine ⟨Actions.createInvoice_validation_error, fun today dbOk => ?_⟩
  exact Actions.createInvoice_validation_error today dbOk _ _ (by decide)

/-- Witness for C2: at the concrete null-customerId input, validation
fails with the customerId message and no effect is performed. -/
theorem c2_witness :
    Actions.createInvoice "2024-01-01" true ⟨none, some "10", some "pending"⟩ =
      (some ⟨some ⟨["Please select a customer."], [], []⟩,
             some "Missing Fields. Failed to Create Invoice."⟩, []) :=
  c2_validation_all_or_nothing.1 "2024-01-01" true
    ⟨none, some "10", some "pending"⟩
    ⟨["Please select a customer."], [], []⟩ (by decide)

/-- Claim C3: whenever the raw amount coerces to a number `q ≤ 0`, the
amount check fails with the message `Please enter an amount greater than
$0.` and the whole draft validation returns an error carrying that
message on the amount field; whenever `q > 0`, the amount check passes
with value `q`. -/
theorem c3_amount_must_exceed_zero :
    ∀ (v : Option String) (q : ℚ), Actions.jsCoerceNumber v = some q →
      (q ≤ 0 →
        Actions.amountField v =
          Except.error ["Please enter an amount greater than $0."] ∧
        ∀ raw : Actions.RawForm, raw.amount = v →
          ∃ e, Actions.parseForm raw = Except.error e ∧
            e.amount = ["Please enter an amount greater than $0."]) ∧
      (0 < q → Actions.amountField v = Except.ok q) := by
  intro v q h
  constructor
  · intro hle
    have hneg : ¬(0 < q) := not_lt.mpr hle
    have hA : Actions.amountField v =
        Except.error ["Please enter an amount greater than $0."] := by
      simp [Actions.amountField, h, hneg]
    exact ⟨hA, fun raw hr =>
      Actions.parseForm_error_of_amount raw _ (by rw [hr]; exact hA)⟩
  · intro hlt
    simp [Actions.amountField, h, hlt]

/-- Witness for C3: the amount `"0"` coerces to `0 ≤ 0` and is rejected
with the amount-must-exceed-zero message; the amount `"10"` coerces to
`10 > 0` and passes. -/
theorem c3_witness :
    Actions.amountField (some "0") =
      Except.error ["Please enter an amount greater than $0."] ∧
    Actions.amountField (some "10") = Except.ok 10 :=
  ⟨((c3_amount_must_exceed_zero (some "0") 0 (by decide)).1 (by decide)).1,
   (c3_amount_must_exceed_zero (some "10") 10 (by decide)).2 (by decide)⟩

/-- Claim C4, counterexample: the code computes `amountInCents = amount *
100` with no truncation, so the value handed to the insert is not always
an integer.  At validated amount `0.005` (which passes the `> 0` check)
the insert receives `1/2`: a non-integer (denominator 2), and distinct
from the `0` that the truncation described by the claim would produce.
This instance is exact in the source's binary64 arithmetic too:
`0.005 * 100` evaluates to exactly `0.5` in JS. -/
theorem c4_counterexample :
    Actions.createInvoice "2024-01-01" true ⟨some "c1", some "0.005", some "pending"⟩ =
      (none,
       [Actions.Effect.sqlInsert "c1" (Rat.divInt 1 2)
          Actions.InvoiceStatus.pending "2024-01-01",
        Actions.Effect.revalidatePath "/dashboard/invoices",
        Actions.Effect.redirect "/dashboard/invoices"]) ∧
    (Rat.divInt 1 2).den ≠ 1 ∧
    Rat.divInt 1 2 ≠ ((Rat.divInt 1 2).floor : ℚ) := by
  refine ⟨?_, by decide, by decide⟩
  have h : Actions.parseForm ⟨some "c1", some "0.005", some "pending"⟩ =
      Except.ok ⟨"c1", Rat.divInt 1 200, Actions.InvoiceStatus.pending⟩ := by decide
  simp [Actions.createInvoice, h]
  norm_num [Rat.divInt_eq_div]

/-- Claim C4 as amended: the mutation step computes `amountInCents =
amount * 100` and hands the product to the insert with no truncation
step, so the persisted value is not an integer in general; the quoted
instance does hold — a validated amount of `12.50` is persisted as
exactly `1250` minor units (`12.5` and `1250` are exactly representable
doubles, so the binary64 product agrees with the rational one here). -/
theorem c4_amount_times_100 :
    (∀ (today : String) (raw : Actions.RawForm) (d : Actions.InvoiceDraft),
      Actions.parseForm raw = Except.ok d →
      (Actions.createInvoice today true raw).2 =
        [Actions.Effect.sqlInsert d.customerId (d.amount * 100) d.status today,
         Actions.Effect.revalidatePath "/dashboard/invoices",
         Actions.Effect.redirect "/dashboard/invoices"]) ∧
    (∀ today : String,
      Actions.createInvoice today true ⟨some "c1", some "12.50", some "paid"⟩ =
        (none,
         [Actions.Effect.sqlInsert "c1" 1250 Actions.InvoiceStatus.paid today,
          Actions.Effect.revalidatePath "/dashboard/invoices",
          Actions.Effect.redirect "/dashboard/invoices"])) := by
  constructor
  · intro today raw d h
    rw [Actions.createInvoice_ok_dbOk today raw d h]
  · intro today
    have h : Actions.parseForm ⟨some "c1", some "12.50", some "paid"⟩ =
        Except.ok ⟨"c1", Rat.divInt 25 2, Actions.InvoiceStatus.paid⟩ := by decide
    rw [Actions.createInvoice_ok_dbOk today _ _ h]
    norm_num [Rat.divInt_eq_div]

/-- Witness for C4: at the concrete validated input with amount `12.50`,
the effect trace is the insert with `amountInCents = (25/2) * 100`
followed by revalidate and redirect. -/
theorem c4_witness :
    (Actions.createInvoice "2024-01-01" true
        ⟨some "c1", some "12.50", some "paid"⟩).2 =
      [Actions.Effect.sqlInsert "c1" (Rat.divInt 25 2 * 100)
         Actions.InvoiceStatus.paid "2024-01-01",
       Actions.Effect.revalidatePath "/dashboard/invoices",
       Actions.Effect.redirect "/dashboard/invoices"] :=
  c4_amount_times_100.1 "2024-01-01" ⟨some "c1", some "12.50", some "paid"⟩
    ⟨"c1", Rat.divInt 25 2, Actions.InvoiceStatus.paid⟩ (by decide)

/-- Claim C5: when the store call fails, each of the three actions
returns exactly its generic message — `Database Error: Failed to
Create|Update|Delete Invoice.` — with no error detail, and its effect
trace is the single failed SQL attempt: no retry, no cache
revalidation, no redirect. -/
theorem c5_db_failure_generic_message :
    (∀ (today : String) (raw : Actions.RawForm) (d : Actions.InvoiceDraft),
      Actions.parseForm raw = Except.ok d →
      Actions.createInvoice today false raw =
        (some ⟨none, some "Database Error: Failed to Create Invoice."⟩,
         [Actions.Effect.sqlInsert d.customerId (d.amount * 100) d.status today])) ∧
    (∀ (id : String) (raw : Actions.RawForm) (d : Actions.InvoiceDraft),
      Actions.parseForm raw = Except.ok d →
      Actions.updateInvoice false id raw =
        Except.ok (some ⟨none, some "Database Error: Failed to Update Invoice."⟩,
         [Actions.Effect.sqlUpdate id d.customerId (d.amount * 100) d.status])) ∧
    (∀ id : String,
      Actions.deleteInvoice false id =
        (some ⟨none, some "Database Error: Failed to Delete Invoice."⟩,
         [Actions.Effect.sqlDelete id])) :=
  ⟨Actions.createInvoice_ok_dbFail, Actions.updateInvoice_ok_dbFail,
   fun _ => rfl⟩

/-- Witness for C5: concrete store-failure runs of all three actions. -/
theorem c5_witness :
    Actions.createInvoice "2024-01-01" false ⟨some "c1", some "10", some "pending"⟩ =
      (some ⟨none, some "Database Error: Failed to Create Invoice."⟩,
       [Actions.Effect.sqlInsert "c1" ((10 : ℚ) * 100)
          Actions.InvoiceStatus.pending "2024-01-01"]) ∧
    Actions.updateInvoice false "i1" ⟨some "c1", some "10", some "pending"⟩ =
      Except.ok (some ⟨none, some "Database Error: Failed to Update Invoice."⟩,
       [Actions.Effect.sqlUpdate "i1" "c1" ((10 : ℚ) * 100)
          Actions.InvoiceStatus.pending]) ∧
    Actions.deleteInvoice false "i1" =
      (some ⟨none, some "Database Error: Failed to Delete Invoice."⟩,
       [Actions.Effect.sqlDelete "i1"]) :=
  ⟨c5_db_failure_generic_message.1 "2024-01-01"
     ⟨some "c1", some "10", some "pending"⟩
     ⟨"c1", 10, Actions.InvoiceStatus.pending⟩ (by decide),
   c5_db_failure_generic_message.2.1 "i1"
     ⟨some "c1", some "10", some "pending"⟩
     ⟨"c1", 10, Actions.InvoiceStatus.pending⟩ (by decide),
   c5_db_failure_generic_message.2.2 "i1"⟩

/-- Claim C6, counterexample: the claim says a validation failure is
never thrown for any of the three actions; but `updateInvoice` uses the
throwing `UpdateInvoice.parse`, so on an input with a missing status the
ZodError propagates out of the action (the outer `Except.error` of the
model) instead of being returned as a structured result. -/
theorem c6_counterexample :
    Actions.updateInvoice true "i1" ⟨some "c1", some "10", none⟩ =
      Except.error ⟨[], [], ["Please select an invoice status."]⟩ := by
  decide

/-- Claim C6 as amended: `createInvoice` surfaces validation failures as
structured per-field messages and never throws; `updateInvoice` instead
propagates the validation failure as a thrown ZodError carrying the same
field errors; `deleteInvoice` performs no validation at all. -/
theorem c6_validation_surfacing :
    (∀ (today : String) (dbOk : Bool) (raw : Actions.RawForm)
        (e : Actions.FieldErrors),
      Actions.parseForm raw = Except.error e →
      Actions.createInvoice today dbOk raw =
        (some ⟨some e, some "Missing Fields. Failed to Create Invoice."⟩, [])) ∧
    (∀ (dbOk : Bool) (id : String) (raw : Actions.RawForm)
        (e : Actions.FieldErrors),
      Actions.parseForm raw = Except.error e →
      Actions.updateInvoice dbOk id raw = Except.error e) :=
  ⟨Actions.createInvoice_validation_error,
   Actions.updateInvoice_validation_error⟩

/-- Witness for C6: at a concrete invalid input (missing status),
`createInvoice` returns the structured error state while `updateInvoice`
propagates the error. -/
theorem c6_witness :
    Actions.createInvoice "2024-01-01" true ⟨some "c1", some "10", none⟩ =
      (some ⟨some ⟨[], [], ["Please select an invoice status."]⟩,
             some "Missing Fields. Failed to Create Invoice."⟩, []) ∧
    Actions.updateInvoice false "i2" ⟨some "c1", some "10", none⟩ =
      Except.error ⟨[], [], ["Please select an invoice status."]⟩ :=
  ⟨c6_validation_surfacing.1 "2024-01-01" true ⟨some "c1", some "10", none⟩
     ⟨[], [], ["Please select an invoice status."]⟩ (by decide),
   c6_validation_surfacing.2 false "i2" ⟨some "c1", some "10", none⟩
     ⟨[], [], ["Please select an invoice status."]⟩ (by decide)⟩

/-- Claim C7: the parameter set built by `handleClick` maps `query` to the
term when the term is non-empty, removes the `query` key entirely when the
term is empty (never leaving it with an empty-string value), and keeps
every other key's values unchanged. -/
theorem c7_query_param_update :
    ∀ (pathname term : String) (ps : Search.Params),
      (term ≠ "" →
        Search.getParam "query" (Search.handleClick pathname ps term).params =
          some term) ∧
      (term = "" →
        Search.hasKey "query" (Search.handleClick pathname ps term).params =
          false) ∧
      (∀ k, k ≠ "query" →
        Search.getAll k (Search.handleClick pathname ps term).params =
          Search.getAll k ps) := by
  intro pathname term ps
  by_cases h : term = ""
  · subst h
    refine ⟨fun hc => absurd rfl hc, fun _ => ?_, fun k hk => ?_⟩
    · simp [Search.handleClick, Search.hasKey_deleteParam_self]
    · simp [Search.handleClick, Search.getAll_deleteParam_ne "query" k hk]
  · refine ⟨fun _ => ?_, fun hc => absurd hc h, fun k hk => ?_⟩
    · simp [Search.handleClick, h, Search.getParam_setParam_self]
    · simp [Search.handleClick, h, Search.getAll_setParam_ne "query" term k hk]

/-- Witness for C7: typing `foo` with a `page=2` parameter present sets
`query=foo` and keeps `page=2`; clearing the field with a stale
`query=x` present removes the `query` key. -/
theorem c7_witness :
    Search.getParam "query"
      (Search.handleClick "/dashboard/invoices" [("page", "2")] "foo").params =
        some "foo" ∧
    Search.getAll "page"
      (Search.handleClick "/dashboard/invoices" [("page", "2")] "foo").params =
        ["2"] ∧
    Search.hasKey "query"
      (Search.handleClick "/dashboard/invoices"
        [("query", "x"), ("page", "2")] "").params = false :=
  ⟨(c7_query_param_update "/dashboard/invoices" "foo" [("page", "2")]).1
     (by decide),
   (c7_query_param_update "/dashboard/invoices" "foo" [("page", "2")]).2.2
     "page" (by decide),
   (c7_query_param_update "/dashboard/invoices" ""
     [("query", "x"), ("page", "2")]).2.1 rfl⟩

/-- Claim C8: for a non-empty keystroke sequence in which every
consecutive gap is shorter than the 1000 ms debounce delay, exactly one
navigation update fires — the `handleClick` invocation on the last
keystroke's value; every earlier scheduled callback is cancelled. -/
theorem c8_debounce_exactly_one_navigation :
    ∀ (pathname : String) (ps : Search.Params) (e : Nat × String)
      (es : List (Nat × String)),
      Debounce.rapidB Debounce.debounceDelay (e :: es) = true →
      Debounce.searchNavigations pathname ps (e :: es) =
        [Search.handleClick pathname ps (Debounce.lastVal e es)] := by
  intro pathname ps e es h
  rw [Debounce.searchNavigations,
    Debounce.debounceFired_rapid Debounce.debounceDelay e es h]
  rfl

/-- Witness for C8: three keystrokes `f`, `fo`, `foo` at 0, 500 and 900 ms
(all gaps below 1000 ms) yield exactly one navigation update, and it is
the `handleClick` call on `foo`. -/
theorem c8_witness :
    Debounce.searchNavigations "/dashboard/invoices" []
      [(0, "f"), (500, "fo"), (900, "foo")] =
      [Search.handleClick "/dashboard/invoices" [] "foo"] :=
  c8_debounce_exactly_one_navigation "/dashboard/invoices" [] (0, "f")
    [(500, "fo"), (900, "foo")] (by decide)

/-- Claim C9: a form submission whose amount entry is absent (`null`) or
the empty string coerces to the number `0`, so the schema rejects it with
the message `Please enter an amount greater than $0.` (not a
missing-field message), and validation never accepts such an input. -/
theorem c9_missing_amount_rejected :
    ∀ raw : Actions.RawForm, raw.amount = none ∨ raw.amount = some "" →
      Actions.jsCoerceNumber raw.amount = some 0 ∧
      Actions.amountField raw.amount =
        Except.error ["Please enter an amount greater than $0."] ∧
      ∃ e, Actions.parseForm raw = Except.error e ∧
        e.amount = ["Please enter an amount greater than $0."] := by
  intro raw h
  have hc : Actions.jsCoerceNumber raw.amount = some 0 := by
    rcases h with h | h <;> rw [h] <;> decide
  have hA : Actions.amountField raw.amount =
      Except.error ["Please enter an amount greater than $0."] := by
    simp [Actions.amountField, hc]
  exact ⟨hc, hA, Actions.parseForm_error_of_amount raw _ hA⟩

/-- Witness for C9: a concrete submission with a missing amount and
otherwise valid fields is rejected with the greater-than-zero message. -/
theorem c9_witness :
    Actions.jsCoerceNumber
      (Actions.RawForm.mk (some "c1") none (some "pending")).amount = some 0 ∧
    Actions.amountField
      (Actions.RawForm.mk (some "c1") none (some "pending")).amount =
        Except.error ["Please enter an amount greater than $0."] ∧
    ∃ e, Actions.parseForm ⟨some "c1", none, some "pending"⟩ = Except.error e ∧
      e.amount = ["Please enter an amount greater than $0."] :=
  c9_missing_amount_rejected ⟨some "c1", none, some "pending"⟩ (Or.inl rfl)

/-- Claim C10: the `authorized` callback grants a `/dashboard` request
exactly when a user is logged in (a denied request is redirected by the
framework to the configured sign-in page `/login`); outside `/dashboard`
a logged-in user is redirected to `/dashboard` and everyone else is
allowed. -/
theorem c10_authorized_access_control :
    ∀ (isLoggedIn : Bool) (pathname : String),
      (Auth.jsStartsWith pathname "/dashboard" = true →
        (Auth.authorized isLoggedIn pathname = Auth.AuthzResult.allow ↔
          isLoggedIn = true) ∧
        (isLoggedIn = false →
          Auth.authorized isLoggedIn pathname = Auth.AuthzResult.deny ∧
          Auth.signInPage = "/login")) ∧
      (Auth.jsStartsWith pathname "/dashboard" = false →
        (isLoggedIn = true →
          Auth.authorized isLoggedIn pathname =
            Auth.AuthzResult.redirectTo "/dashboard") ∧
        (isLoggedIn = false →
          Auth.authorized isLoggedIn pathname = Auth.AuthzResult.allow)) := by
  intro isLoggedIn pathname
  cases isLoggedIn <;>
    constructor <;>
      intro h <;>
        simp [Auth.authorized, h, Auth.signInPage]

/-- Witness for C10: an unauthenticated request to `/dashboard/invoices`
is denied (sign-in page `/login`); a logged-in request to `/login` is
redirected to `/dashboard`. -/
theorem c10_witness :
    (Auth.authorized false "/dashboard/invoices" = Auth.AuthzResult.deny ∧
      Auth.signInPage = "/login") ∧
    Auth.authorized true "/login" = Auth.AuthzResult.redirectTo "/dashboard" :=
  ⟨((c10_authorized_access_control false "/dashboard/invoices").1
      (by decide)).2 rfl,
   ((c10_authorized_access_control true "/login").2 (by decide)).1 rfl⟩
